import Mathlib

/-!
Shallow embedding of `src/bg3_mod_installer.py` (BG3ModInstaller): the XML
registry documents (`modsettings.lsx`), the JSON manifest values, and the
install/remove operations, together with proofs of the specification claims.
-/

set_option linter.unusedVariables false

/-- Python `str.lower` (ASCII fragment, character by character). -/
def pyLower (s : String) : String :=
  ⟨s.data.map Char.toLower⟩

/-- Python `str.endswith`. -/
def pyEndsWith (s t : String) : Bool :=
  t.data.isSuffixOf s.data

/-- An `xml.etree.ElementTree` element: tag, attribute dictionary
(association list, keys unique by construction), ordered child elements. -/
inductive Xml : Type where
  | elem (tag : String) (attrs : List (String × String)) (children : List Xml)
deriving Repr

def Xml.tag : Xml → String
  | .elem t _ _ => t

def Xml.attrs : Xml → List (String × String)
  | .elem _ a _ => a

def Xml.children : Xml → List Xml
  | .elem _ _ c => c

/-- The lookup `Element.get(key)` on the attribute dictionary. -/
def lookupAttr (attrs : List (String × String)) (k : String) : Option String :=
  (attrs.find? (fun p => p.1 == k)).map (·.2)

/-- Nodes matched by the path step `node[@id='Mods']`. -/
def isModsNode (tag : String) (attrs : List (String × String)) : Bool :=
  tag == "node" && lookupAttr attrs "id" == some "Mods"

mutual
/-- Apply `f` to the child list of the first `children` element of `l`
(the candidate container contributed by one `node[@id='Mods']` match). -/
def modFirstChildrenElem (f : List Xml → List Xml) : List Xml → Option (List Xml)
  | [] => none
  | .elem t a cs :: rest =>
    if t == "children" then some (.elem t a (f cs) :: rest)
    else (modFirstChildrenElem f rest).map (.elem t a cs :: ·)

/-- The search `root.find(".//node[@id='Mods']/children")` followed by an in-place
modification `f` of that container's child list: the Mods nodes are scanned
in document order and the first one owning a `children` element wins;
`none` when no such container exists anywhere below. -/
def tryModNode (f : List Xml → List Xml) : Xml → Option Xml
  | .elem tag attrs children =>
    if isModsNode tag attrs then
      match modFirstChildrenElem f children with
      | some children' => some (.elem tag attrs children')
      | none => (tryModList f children).map (.elem tag attrs)
    else (tryModList f children).map (.elem tag attrs)

def tryModList (f : List Xml → List Xml) : List Xml → Option (List Xml)
  | [] => none
  | c :: rest =>
    match tryModNode f c with
    | some c' => some (c' :: rest)
    | none => (tryModList f rest).map (c :: ·)
end

/-- The document-level form: `.//` starts at the root's children (the root
element itself is not matched by `.//node`). -/
def applyModMods (f : List Xml → List Xml) : Xml → Option Xml
  | .elem t a cs => (tryModList f cs).map (.elem t a)

mutual
/-- The scan `root.findall(".//node[@id='ModuleShortDesc']")` restricted to one
element: the element itself when it matches, then its matching descendants,
in document order. -/
def collectNode : Xml → List Xml
  | .elem tag attrs children =>
    (if tag == "node" && lookupAttr attrs "id" == some "ModuleShortDesc" then
      [Xml.elem tag attrs children] else []) ++ collectList children

def collectList : List Xml → List Xml
  | [] => []
  | c :: rest => collectNode c ++ collectList rest
end

/-! ### Parsed JSON values (the result of `json.loads`) -/

/-- A parsed JSON value.  Numbers are modelled as integers (the manifests at
stake only carry integral `Version` tags). -/
inductive JVal : Type where
  | null
  | bool (b : Bool)
  | num (n : Int)
  | str (s : String)
  | arr (xs : List JVal)
  | obj (fields : List (String × JVal))
deriving Repr

/-- Dictionary lookup on a parsed JSON object: with duplicate keys,
`json.loads` keeps the last value, hence the reversed scan. -/
def jobjGet (fields : List (String × JVal)) (k : String) : Option JVal :=
  (fields.reverse.find? (fun p => p.1 == k)).map (·.2)

mutual
/-- Python `repr` of a JSON-parsed value (string escaping simplified to plain
single quotes; no manifest in the claims exercises quoting). -/
def pyRepr : JVal → String
  | .null => "None"
  | .bool b => if b then "True" else "False"
  | .num n => toString n
  | .str s => "\x27" ++ s ++ "\x27"
  | .arr xs => "[" ++ ", ".intercalate (pyReprList xs) ++ "]"
  | .obj fs => "\x7b" ++ ", ".intercalate (pyReprFields fs) ++ "\x7d"

def pyReprList : List JVal → List String
  | [] => []
  | x :: xs => pyRepr x :: pyReprList xs

def pyReprFields : List (String × JVal) → List String
  | [] => []
  | (k, v) :: fs => ("\x27" ++ k ++ "\x27: " ++ pyRepr v) :: pyReprFields fs
end

/-- Python `str` of a JSON-parsed value. -/
def pyStr : JVal → String
  | .str s => s
  | v => pyRepr v

/-- Python `key in value` for a string key; `none` models a `TypeError`
(`in` applied to a number, boolean or `None`). -/
def pyContains (v : JVal) (k : String) : Option Bool :=
  match v with
  | .obj fs => some (fs.any (fun p => p.1 == k))
  | .arr xs => some (xs.any (fun x => match x with | .str s => s == k | _ => false))
  | .str s => some (if k.data.isEmpty then true else (s.splitOn k).length > 1)
  | _ => none

/-- Python `value[key]` for a string key; `none` models the raised
`TypeError`/`KeyError` (subscripting a list or string with a string key,
or a missing dictionary key). -/
def pySubscript (v : JVal) (k : String) : Option JVal :=
  match v with
  | .obj fs => jobjGet fs k
  | _ => none

/-- Python `len(value)`; `none` models the `TypeError` on numbers,
booleans and `None`. -/
def pyLen (v : JVal) : Option Nat :=
  match v with
  | .arr xs => some xs.length
  | .str s => some s.data.length
  | .obj fs => some ((fs.map (·.1)).eraseDups.length)
  | _ => none

/-- Python `value[0]`; `none` models the raised `IndexError`/`KeyError`/
`TypeError`. -/
def pyIndexZero (v : JVal) : Option JVal :=
  match v with
  | .arr (x :: _) => some x
  | .str s => if s.data.isEmpty then none else some (.str ⟨s.data.take 1⟩)
  | _ => none

/-! ### Registry record extraction (`get_installed_mods`) -/

/-- A Python dictionary built from `attr.get('id') -> attr.get('value')`:
keys and values may both be `None`. -/
abbrev PyDict := List (Option String × Option String)

/-- Python dictionary assignment `d[k] = v`: an existing key keeps its
position and takes the new value, a new key is appended. -/
def dictInsert (d : PyDict) (k v : Option String) : PyDict :=
  if d.any (fun p => p.1 == k) then
    d.map (fun p => if p.1 == k then (k, v) else p)
  else d ++ [(k, v)]

/-- Python `d[k]` for a string key: `none` models the `KeyError`; a present
key yields its (possibly `None`) value. -/
def pyDictGet (d : PyDict) (k : String) : Option (Option String) :=
  (d.find? (fun p => p.1 == some k)).map (·.2)

/-- One `ModuleShortDesc` node turned into a record dictionary:
`mod.findall("attribute")` scans the direct children with tag
`attribute`, in order. -/
def recordOfNode (n : Xml) : PyDict :=
  (n.children.filter (fun c => c.tag == "attribute")).foldl
    (fun d a => dictInsert d (lookupAttr a.attrs "id") (lookupAttr a.attrs "value")) []

/-! ### Program state

File contents are modelled post-parse: a registry file is `none` when it is
missing or malformed (so `ET.parse` raises), `some doc` otherwise.  `writes`
logs the registry files rewritten by `tree.write`, in order. -/

structure St where
  modsDirExists : Bool
  modsFiles : List String
  profileDoc : Option Xml
  userDoc : Option Xml
  userdataEntries : Option (List String)
  writes : List String
deriving Repr

/-- Python `str.isdigit` (ASCII fragment). -/
def pyIsDigit (s : String) : Bool :=
  !s.data.isEmpty && s.data.all (·.isDigit)

/-- Model of `get_steam_id`: the first all-digit entry of the `userdata` listing, or
`none` when the listing fails or holds no such entry — in which case the
method prints a diagnostic and calls `sys.exit(1)`. -/
def steamIdOf (s : St) : Option String :=
  match s.userdataEntries with
  | none => none
  | some es => (es.filter pyIsDigit).head?

/-- Model of `get_installed_mods`: any failure (missing or malformed file) is caught
and turned into the empty list; otherwise all `ModuleShortDesc` nodes in
document order, as record dictionaries. -/
def getInstalledMods (d : Option Xml) : List PyDict :=
  match d with
  | none => []
  | some t => (collectList t.children).map recordOfNode

/-! ### `create_mod_xml` and `update_modsettings` -/

/-- One `attribute` sub-element as built by `create_mod_xml`. -/
def attrElem (k v : String) : Xml :=
  .elem "attribute" [("id", k), ("type", "LSString"), ("value", v)] []

/-- The `ModuleShortDesc` node with its five attributes in the fixed
dictionary order Folder, MD5, Name, UUID, Version64. -/
def mkModule (folder md5 name uuid version64 : String) : Xml :=
  .elem "node" [("id", "ModuleShortDesc")]
    [attrElem "Folder" folder, attrElem "MD5" md5, attrElem "Name" name,
     attrElem "UUID" uuid, attrElem "Version64" version64]

/-- Model of `create_mod_xml(mod_info)` together with the serializability check of
the subsequent `tree.write`: `none` when `mod_info` is not a dictionary,
a required key is missing (`KeyError`), or a non-`Version` attribute value
is not a string (`TypeError` raised when the tree is serialized) — each of
which the caller's handler turns into `sys.exit(1)`. -/
def createModXml (info : JVal) : Option Xml := do
  let fields ← match info with | .obj fs => some fs | _ => none
  let folder ← jobjGet fields "Folder"
  let md5 := (jobjGet fields "MD5").getD (.str "")
  let name ← jobjGet fields "Name"
  let uuid ← jobjGet fields "UUID"
  let version := (jobjGet fields "Version").getD (.str "36028797018963968")
  let folderS ← match folder with | .str s => some s | _ => none
  let md5S ← match md5 with | .str s => some s | _ => none
  let nameS ← match name with | .str s => some s | _ => none
  let uuidS ← match uuid with | .str s => some s | _ => none
  some (mkModule folderS md5S nameS uuidS (pyStr version))

/-- One iteration of the `update_modsettings` loop on the parsed content of
one registry file: parse, locate the `Mods` children container (raising
when absent), append the new module, serialize.  `none` is the
`sys.exit(1)` path of the surrounding handler. -/
def updateOne (info : JVal) (d : Option Xml) : Option Xml := do
  let t ← d
  let m ← createModXml info
  applyModMods (· ++ [m]) t

inductive InstallOutcome : Type where
  | ok
  | exitProc
deriving Repr, DecidableEq

/-- Model of `update_modsettings(mod_info)`: resolve the Steam id (exiting when none
is found), then update the profile file and the userdata file in that
order, writing each as soon as it is updated. -/
def updateModsettings (info : JVal) (s : St) : St × InstallOutcome :=
  match steamIdOf s with
  | none => (s, .exitProc)
  | some _ =>
    match updateOne info s.profileDoc with
    | none => (s, .exitProc)
    | some d1 =>
      let s1 := { s with profileDoc := some d1, writes := s.writes ++ ["profile"] }
      match updateOne info s1.userDoc with
      | none => (s1, .exitProc)
      | some d2 =>
        ({ s1 with userDoc := some d2, writes := s1.writes ++ ["user"] }, .ok)

/-! ### `install_mod` -/

/-- One archive member: its name, and its content parsed as JSON when it is
read as a manifest (`none` = `json.loads` raises). -/
structure ZipEntry where
  name : String
  json : Option JVal
deriving Repr

/-- The install argument: the path's suffix and name, and the archive
listing when the file opens as a zip (`none` = `zipfile.BadZipFile`). -/
structure ModInput where
  suffix : String
  name : String
  zipData : Option (List ZipEntry)
deriving Repr

/-- The test `if "Mods" in info_data and len(info_data["Mods"]) > 0:` followed by the
selection of `info_data["Mods"][0]`. -/
inductive MAction : Type where
  | err
  | skip
  | record (r : JVal)
deriving Repr

def manifestAction (j : JVal) : MAction :=
  match pyContains j "Mods" with
  | none => .err
  | some false => .skip
  | some true =>
    match pySubscript j "Mods" with
    | none => .err
    | some v =>
      match pyLen v with
      | none => .err
      | some n =>
        if n > 0 then
          match pyIndexZero v with
          | none => .err
          | some r => .record r
        else .skip

/-- Model of `install_mod(mod_path)`.  The mods directory is created first; then the
lower-cased suffix picks the branch; every caught exception ends in
`sys.exit(1)`. -/
def installMod (inp : ModInput) (s : St) : St × InstallOutcome :=
  let s0 := { s with modsDirExists := true }
  if [".zip", ".rar", ".7z"].contains (pyLower inp.suffix) then
    match inp.zipData with
    | none => (s0, .exitProc)
    | some entries =>
      let pakFiles := entries.filter (fun e => pyEndsWith e.name ".pak")
      let infoFiles := entries.filter (fun e => pyEndsWith e.name "info.json")
      if pakFiles.isEmpty then (s0, .exitProc)
      else
        let s1 := { s0 with modsFiles := s0.modsFiles ++ pakFiles.map (·.name) }
        match infoFiles with
        | [] => (s1, .ok)
        | e :: _ =>
          match e.json with
          | none => (s1, .exitProc)
          | some j =>
            match manifestAction j with
            | .err => (s1, .exitProc)
            | .skip => (s1, .ok)
            | .record r => updateModsettings r s1
  else if pyLower inp.suffix == ".pak" then
    ({ s0 with modsFiles := s0.modsFiles ++ [inp.name] }, .ok)
  else (s0, .exitProc)

/-! ### `remove_mod` -/

inductive RemoveOutcome : Type where
  | ret (b : Bool)
  | exitProc
deriving Repr, DecidableEq

/-- The f-string rendering of the selected record's possibly-`None`
`Folder` value. -/
def pyFormatOpt : Option String → String
  | some s => s
  | none => "None"

/-- Whether one direct child of the Mods children container is the node
removed for `folder`: tag `node`, id `ModuleShortDesc`, and a first
`attribute[@id='Folder']` child whose `value` equals the target. -/
def moduleMatches (folder : Option String) (c : Xml) : Bool :=
  c.tag == "node" && lookupAttr c.attrs "id" == some "ModuleShortDesc" &&
    match c.children.find?
        (fun a => a.tag == "attribute" && lookupAttr a.attrs "id" == some "Folder") with
    | some a => lookupAttr a.attrs "value" == folder
    | none => false

/-- Remove the first matching `ModuleShortDesc` child (the loop breaks after
one removal). -/
def removeFirstModule (folder : Option String) : List Xml → List Xml
  | [] => []
  | c :: rest =>
    if moduleMatches folder c then rest else c :: removeFirstModule folder rest

/-- The per-file body of the `remove_mod` write loop: locate the Mods
children container, remove the first matching module if the container
exists (silently keeping the document otherwise), and serialize. -/
def removeFromDoc (folder : Option String) (t : Xml) : Xml :=
  (applyModMods (removeFirstModule folder) t).getD t

/-- Model of `remove_mod(mod_index)`: list the installed records, bounds-check the
index, read the record's `Folder`, unlink `<Folder>.pak` when present,
resolve the Steam id (exiting the process when none is found), then rewrite
both registry files.  Caught exceptions return `false`. -/
def removeMod (i : Int) (s : St) : St × RemoveOutcome :=
  let mods := getInstalledMods s.profileDoc
  if 0 ≤ i ∧ i < mods.length then
    match pyDictGet (mods.getD i.toNat []) "Folder" with
    | none => (s, .ret false)
    | some folderOpt =>
      let pakName := pyFormatOpt folderOpt ++ ".pak"
      let s1 := if pakName ∈ s.modsFiles
        then { s with modsFiles := s.modsFiles.erase pakName }
        else s
      match steamIdOf s1 with
      | none => (s1, .exitProc)
      | some _ =>
        match s1.profileDoc with
        | none => (s1, .ret false)
        | some d1 =>
          let s2 := { s1 with profileDoc := some (removeFromDoc folderOpt d1),
                              writes := s1.writes ++ ["profile"] }
          match s2.userDoc with
          | none => (s2, .ret false)
          | some d2 =>
            ({ s2 with userDoc := some (removeFromDoc folderOpt d2),
                       writes := s2.writes ++ ["user"] }, .ret true)
  else (s, .ret false)

/-! ### The menu loop's install branch -/

/-- The outcome of one pass through the menu's install option: `install_mod`
either returns normally or raises `SystemExit` via `sys.exit(1)`, and the
surrounding `except Exception` clause does not catch `SystemExit`, so the
exit propagates and terminates the process. -/
inductive MenuOutcome : Type where
  | continueLoop
  | exitProgram
deriving Repr, DecidableEq

def menuInstallStep (r : InstallOutcome) : MenuOutcome :=
  match r with
  | .ok => .continueLoop
  | .exitProc => .exitProgram

/-! ### The standard registry document shape -/

/-- A `modsettings.lsx` document with the given `ModuleShortDesc` nodes
under the `Mods` children container. -/
def mkModsettings (mods : List Xml) : Xml :=
  .elem "save" []
    [.elem "version" [("major", "4"), ("minor", "7"), ("revision", "1"), ("build", "3")] [],
     .elem "region" [("id", "ModuleSettings")]
       [.elem "node" [("id", "root")]
         [.elem "children" []
           [.elem "node" [("id", "ModOrder")] [.elem "children" [] []],
            .elem "node" [("id", "Mods")] [.elem "children" [] mods]]]]]

/-- One registered package, as a plain record of its five attribute
values. -/
structure ModRec where
  folder : String
  md5 : String
  name : String
  uuid : String
  version : String
deriving Repr, DecidableEq

/-- The `ModuleShortDesc` node of a record. -/
def ModRec.node (r : ModRec) : Xml :=
  mkModule r.folder r.md5 r.name r.uuid r.version

/-- The dictionary `get_installed_mods` extracts from that node. -/
def ModRec.dict (r : ModRec) : PyDict :=
  [(some "Folder", some r.folder), (some "MD5", some r.md5), (some "Name", some r.name),
   (some "UUID", some r.uuid), (some "Version64", some r.version)]

/-! ### Concrete fixtures used by the closed theorems -/

/-- A pristine filesystem: no mods directory, no registry files, no
`userdata` directory. -/
def stEmpty : St :=
  ⟨false, [], none, none, none, []⟩

/-- A healthy base state: empty registries in the standard shape, one Steam
id, no installed files. -/
def stBase : St :=
  ⟨false, [], some (mkModsettings []), some (mkModsettings []), some ["111"], []⟩

/-- A registry document with a `ModuleShortDesc` node but no
`node[@id='Mods']/children` container anywhere. -/
def docNoMods : Xml :=
  .elem "save" [] [mkModule "F" "" "N" "U" "1"]

/-- A state whose two registry files parse but lack the Mods container. -/
def stNoMods : St :=
  ⟨true, [], some docNoMods, some docNoMods, some ["111"], []⟩

/-- Two records sharing the Folder value `F` and differing elsewhere. -/
def recA : ModRec := ⟨"F", "", "A", "uuid-a", "1"⟩
def recB : ModRec := ⟨"F", "", "B", "uuid-b", "1"⟩

/-- A state whose registries hold the duplicate-Folder pair `[recA, recB]`. -/
def stDup : St :=
  ⟨true, [], some (mkModsettings [recA.node, recB.node]),
   some (mkModsettings [recA.node, recB.node]), some ["111"], []⟩

/-- A record and a state used to instantiate the in-bounds remove
theorems. -/
def recW : ModRec := ⟨"ModX", "", "Mod X", "abc-123", "36028797018963968"⟩

def stOne : St :=
  ⟨true, ["ModY.pak"], some (mkModsettings [recW.node]),
   some (mkModsettings [recW.node]), some ["111"], []⟩

/-- A state with one installed record but a missing `userdata` directory,
so the Steam-id lookup fails. -/
def stNoSteam : St :=
  ⟨true, [], some (mkModsettings [recW.node]), some (mkModsettings [recW.node]), none, []⟩

/-- The manifest of the end-to-end scenario:
`{"Mods":[{"Folder":"ModX","Name":"Mod X","UUID":"abc-123"}]}`. -/
def manifestW : JVal :=
  .obj [("Mods", .arr [.obj [("Folder", .str "ModX"), ("Name", .str "Mod X"),
    ("UUID", .str "abc-123")]])]

/-- The archive `mod.zip` of the end-to-end scenario. -/
def zipW : List ZipEntry :=
  [⟨"ModX/ModX.pak", none⟩, ⟨"info.json", some manifestW⟩]

/-!
## Helper lemmas
-/

theorem applyModMods_mkModsettings (f : List Xml → List Xml) (l : List Xml) :
    applyModMods f (mkModsettings l) = some (mkModsettings (f l)) := rfl

theorem getInstalledMods_mkModsettings (l : List Xml) :
    getInstalledMods (some (mkModsettings l)) = (collectList l).map recordOfNode := by
  simp [getInstalledMods, mkModsettings, collectList, collectNode, lookupAttr, Xml.children]

theorem collectNode_modRec (r : ModRec) : collectNode r.node = [r.node] := rfl

theorem recordOfNode_modRec (r : ModRec) : recordOfNode r.node = r.dict := rfl

theorem collectList_modRecs (rs : List ModRec) :
    collectList (rs.map ModRec.node) = rs.map ModRec.node := by
  induction rs with
  | nil => rfl
  | cons r rest ih => simp [collectNode_modRec, collectList, ih]

theorem getInstalledMods_modRecs (rs : List ModRec) :
    getInstalledMods (some (mkModsettings (rs.map ModRec.node))) = rs.map ModRec.dict := by
  rw [getInstalledMods_mkModsettings, collectList_modRecs]
  simp [recordOfNode_modRec]

theorem moduleMatches_modRec (t : String) (r : ModRec) :
    moduleMatches (some t) r.node = (r.folder == t) := rfl

theorem list_map_eraseIdx (f : α → β) (l : List α) (i : Nat) :
    (l.map f).eraseIdx i = (l.eraseIdx i).map f := by
  induction l generalizing i with
  | nil => simp
  | cons a l ih =>
    cases i with
    | zero => simp
    | succ j => simp [List.eraseIdx_cons_succ, ih]

theorem removeFirstModule_modRecs (rs : List ModRec) (i : Nat) (h : i < rs.length)
    (hfresh : ∀ r' ∈ rs.take i, r'.folder ≠ rs[i].folder) :
    removeFirstModule (some rs[i].folder) (rs.map ModRec.node) =
      (rs.map ModRec.node).eraseIdx i := by
  induction rs generalizing i with
  | nil => exact absurd h (Nat.not_lt_zero i)
  | cons r rest ih =>
    cases i with
    | zero =>
      simp [removeFirstModule, moduleMatches_modRec]
    | succ j =>
      have hj : j < rest.length := Nat.lt_of_succ_lt_succ h
      have hne : r.folder ≠ rest[j].folder := by
        have := hfresh r (by simp)
        simpa using this
      have hbe : (r.folder == rest[j].folder) = false := by
        simpa using hne
      simp only [List.map_cons, removeFirstModule, moduleMatches_modRec,
        List.getElem_cons_succ, hbe, Bool.false_eq_true, if_false,
        List.eraseIdx_cons_succ, List.cons.injEq, true_and]
      exact ih j hj (fun r' hr' => by
        have : r' ∈ (r :: rest).take (j + 1) := by simp [hr']
        simpa using hfresh r' this)

theorem any_key_of_jobjGet {fs : List (String × JVal)} {k : String} {v : JVal}
    (h : jobjGet fs k = some v) : fs.any (fun p => p.1 == k) = true := by
  unfold jobjGet at h
  cases hf : fs.reverse.find? (fun p => p.1 == k) with
  | none => rw [hf] at h; cases h
  | some x =>
    have hx := List.find?_some (p := fun q : String × JVal => q.1 == k) hf
    have hmem : x ∈ fs := List.mem_reverse.mp (List.mem_of_find?_eq_some hf)
    rw [List.any_eq_true]
    exact ⟨x, hmem, hx⟩

theorem createModXml_eq (rfields : List (String × JVal)) (folder md5 name uuid ver : String)
    (hF : jobjGet rfields "Folder" = some (.str folder))
    (hM : (jobjGet rfields "MD5").getD (.str "") = .str md5)
    (hN : jobjGet rfields "Name" = some (.str name))
    (hU : jobjGet rfields "UUID" = some (.str uuid))
    (hV : pyStr ((jobjGet rfields "Version").getD (.str "36028797018963968")) = ver) :
    createModXml (.obj rfields) = some (mkModule folder md5 name uuid ver) := by
  simp only [createModXml, hF, hM, hN, hU, hV, Option.bind_eq_bind, Option.some_bind]

theorem pyDictGet_folder (r : ModRec) : pyDictGet r.dict "Folder" = some (some r.folder) := rfl

theorem updateModsettings_mk (info : JVal) (m : Xml) (s' : St) (ms1 ms2 : List Xml)
    (sid : String)
    (hc : createModXml info = some m)
    (hp : s'.profileDoc = some (mkModsettings ms1))
    (hu : s'.userDoc = some (mkModsettings ms2))
    (hs : steamIdOf s' = some sid) :
    updateModsettings info s' =
      ({ s' with profileDoc := some (mkModsettings (ms1 ++ [m])),
                 userDoc := some (mkModsettings (ms2 ++ [m])),
                 writes := s'.writes ++ ["profile", "user"] }, InstallOutcome.ok) := by
  simp only [updateModsettings, hs, updateOne, hp, hu, hc, Option.bind_eq_bind,
    Option.some_bind, applyModMods_mkModsettings, List.append_assoc, List.cons_append,
    List.nil_append]

/-!
## The claims
-/

/-- C6: for every index `i` outside `[0, count)` of the listed records,
`remove_mod` returns `False` and the state — in particular both registry
files — is left completely unchanged. -/
theorem remove_out_of_bounds_unchanged (i : Int) (s : St)
    (h : ¬ (0 ≤ i ∧ i < (getInstalledMods s.profileDoc).length)) :
    removeMod i s = (s, RemoveOutcome.ret false) := by
  simp only [removeMod]
  rw [if_neg h]

theorem remove_out_of_bounds_unchanged_witness :
    removeMod 5 stOne = (stOne, RemoveOutcome.ret false) ∧
    removeMod (-1) stOne = (stOne, RemoveOutcome.ret false) :=
  ⟨remove_out_of_bounds_unchanged 5 stOne (by decide),
   remove_out_of_bounds_unchanged (-1) stOne (by decide)⟩

/-- C2 (code bug): at the failing input `mod.rar` — the suffix is accepted
as archive-like but `zipfile` cannot open the file — `install_mod` takes
its `sys.exit(1)` path, and the menu's `except Exception` clause does not
catch the resulting `SystemExit`, so the whole program exits instead of
returning to the menu as the claim states. -/
theorem menu_install_failure_exits_process :
    (installMod ⟨".rar", "mod.rar", none⟩ stEmpty).2 = InstallOutcome.exitProc ∧
    menuInstallStep (installMod ⟨".rar", "mod.rar", none⟩ stEmpty).2 =
      MenuOutcome.exitProgram := by
  exact ⟨by decide, by decide⟩

/-- C3 (counterexample): on an unsupported extension `install_mod` creates
the mods directory before checking the suffix, so the filesystem is not
left untouched. -/
theorem unsupported_type_creates_mods_dir :
    stEmpty.modsDirExists = false ∧
    (installMod ⟨".xyz", "mod.xyz", none⟩ stEmpty).1.modsDirExists = true ∧
    (installMod ⟨".xyz", "mod.xyz", none⟩ stEmpty).2 = InstallOutcome.exitProc := by
  exact ⟨rfl, by decide, by decide⟩

/-- C3 (amended): an unsupported extension fails with the
unsupported-file-type error and performs no filesystem writes other than
the idempotent creation of the install directory (which happens before
the extension check). -/
theorem unsupported_type_only_creates_mods_dir (inp : ModInput) (s : St)
    (h1 : [".zip", ".rar", ".7z"].contains (pyLower inp.suffix) = false)
    (h2 : (pyLower inp.suffix == ".pak") = false) :
    installMod inp s = ({ s with modsDirExists := true }, InstallOutcome.exitProc) := by
  simp only [installMod, h1, h2, Bool.false_eq_true, if_false]

theorem unsupported_type_only_creates_mods_dir_witness :
    installMod ⟨".xyz", "mod.xyz", none⟩ stOne =
      ({ stOne with modsDirExists := true }, InstallOutcome.exitProc) :=
  unsupported_type_only_creates_mods_dir ⟨".xyz", "mod.xyz", none⟩ stOne
    (by decide) (by decide)

/-- C9: the branch taken by `install_mod` depends on the path's suffix only
through `suffix.lower()`, so two inputs whose lower-cased suffixes agree
are processed identically. -/
theorem install_dispatch_case_insensitive (t1 t2 nm : String)
    (zd : Option (List ZipEntry)) (st : St)
    (h : pyLower t1 = pyLower t2) :
    installMod ⟨t1, nm, zd⟩ st = installMod ⟨t2, nm, zd⟩ st := by
  simp only [installMod, h]

theorem install_dispatch_case_insensitive_witness :
    installMod ⟨".ZIP", "m.ZIP", none⟩ stEmpty =
      installMod ⟨".zip", "m.ZIP", none⟩ stEmpty ∧
    installMod ⟨".PAK", "m.PAK", none⟩ stEmpty =
      installMod ⟨".pak", "m.PAK", none⟩ stEmpty :=
  ⟨install_dispatch_case_insensitive ".ZIP" ".zip" "m.ZIP" none stEmpty (by decide),
   install_dispatch_case_insensitive ".PAK" ".pak" "m.PAK" none stEmpty (by decide)⟩

theorem steamIdOf_update_modsFiles (s : St) (l : List String) :
    steamIdOf { s with modsFiles := l } = steamIdOf s := rfl

/-- C4 (counterexample): with one installed record but no `userdata`
directory, an in-bounds `remove_mod` call reaches `get_steam_id`, which
prints a diagnostic and calls `sys.exit(1)`; the raised `SystemExit` is not
an `Exception`, so the method's own handler does not catch it and the
process terminates instead of a failure indicator being returned. -/
theorem remove_exits_when_no_steam_id :
    (removeMod 0 stNoSteam).2 = RemoveOutcome.exitProc := by decide

/-- C4 (amended): whenever the Steam-id lookup succeeds, `remove_mod`
returns a success/failure indicator to its caller and never terminates the
process; the lookup failure is the single exiting path. -/
theorem remove_returns_indicator_when_id_found (i : Int) (s : St) (sid : String)
    (h : steamIdOf s = some sid) :
    (removeMod i s).2 ≠ RemoveOutcome.exitProc := by
  simp only [removeMod]
  split
  · split
    · simp
    · split
      · exfalso
        rename_i heq
        rw [apply_ite steamIdOf, steamIdOf_update_modsFiles, ite_self, h] at heq
        cases heq
      · split
        · simp
        · split <;> simp
  · simp

theorem remove_returns_indicator_when_id_found_witness :
    (removeMod 0 stOne).2 ≠ RemoveOutcome.exitProc :=
  remove_returns_indicator_when_id_found 0 stOne "111" (by decide)

/-- C7: a valid archive with at least one `.pak` entry and no manifest
entry installs exactly the `.pak` entries (each extracted under the mods
directory with its archive-relative name) and leaves both registry files
and the write log untouched; every `.pak` entry of the archive appears in
the install directory afterwards. -/
theorem archive_without_manifest_installs_paks (s : St) (suffix nm : String)
    (entries : List ZipEntry)
    (hsuf : [".zip", ".rar", ".7z"].contains (pyLower suffix) = true)
    (hpak : (entries.filter (fun z => pyEndsWith z.name ".pak")).isEmpty = false)
    (hinfo : entries.filter (fun z => pyEndsWith z.name "info.json") = []) :
    installMod ⟨suffix, nm, some entries⟩ s =
      ({ s with modsDirExists := true,
                modsFiles := s.modsFiles ++
                  (entries.filter (fun z => pyEndsWith z.name ".pak")).map (·.name) },
        InstallOutcome.ok) ∧
    ∀ z ∈ entries, pyEndsWith z.name ".pak" = true →
      z.name ∈ (installMod ⟨suffix, nm, some entries⟩ s).1.modsFiles := by
  have h1 : installMod ⟨suffix, nm, some entries⟩ s =
      ({ s with modsDirExists := true,
                modsFiles := s.modsFiles ++
                  (entries.filter (fun z => pyEndsWith z.name ".pak")).map (·.name) },
        InstallOutcome.ok) := by
    simp only [installMod, hsuf, if_true, hpak, hinfo, Bool.false_eq_true, if_false]
  refine ⟨h1, fun z hz hpakz => ?_⟩
  rw [h1]
  exact List.mem_append_right _ (List.mem_map_of_mem _ (List.mem_filter.mpr ⟨hz, hpakz⟩))

theorem archive_without_manifest_installs_paks_witness :
    installMod ⟨".zip", "m.zip", some [⟨"A/a.pak", none⟩, ⟨"readme.txt", none⟩]⟩ stBase =
      ({ stBase with modsDirExists := true,
                     modsFiles := stBase.modsFiles ++
                       (([⟨"A/a.pak", none⟩, ⟨"readme.txt", none⟩] : List ZipEntry).filter
                         (fun z => pyEndsWith z.name ".pak")).map (·.name) },
        InstallOutcome.ok) ∧
    "A/a.pak" ∈
      (installMod ⟨".zip", "m.zip", some [⟨"A/a.pak", none⟩, ⟨"readme.txt", none⟩]⟩
        stBase).1.modsFiles := by
  have h := archive_without_manifest_installs_paks stBase ".zip" "m.zip"
    [⟨"A/a.pak", none⟩, ⟨"readme.txt", none⟩] (by decide) (by decide) rfl
  exact ⟨h.1, h.2 ⟨"A/a.pak", none⟩ (by simp) (by decide)⟩

/-- C8 (counterexample): a missing or malformed registry path makes
`get_installed_mods` silently yield the empty record list rather than a
parse failure, and a registry with no `Mods` children container makes
`remove_mod` silently rewrite the document unchanged and report success
rather than a schema failure. -/
theorem registry_load_failures_are_silent :
    getInstalledMods none = [] ∧
    (removeMod 0 stNoMods).2 = RemoveOutcome.ret true ∧
    (removeMod 0 stNoMods).1.profileDoc = some docNoMods := by
  refine ⟨rfl, by decide, ?_⟩
  rfl

/-- C8 (amended): only `update_modsettings` enforces the schema: it exits
when a registry fails to parse and when the document has no
`node[@id='Mods']/children` container, while `get_installed_mods` turns a
missing or malformed registry into an empty record list. -/
theorem registry_error_behavior (info : JVal) (t m : Xml)
    (hc : createModXml info = some m)
    (hnoc : ∀ f, applyModMods f t = none) :
    updateOne info none = none ∧ updateOne info (some t) = none ∧
    getInstalledMods none = [] := by
  refine ⟨rfl, ?_, rfl⟩
  simp only [updateOne, hc, Option.bind_eq_bind, Option.some_bind, hnoc]

theorem registry_error_behavior_witness :
    updateOne (.obj [("Folder", .str "F"), ("Name", .str "N"), ("UUID", .str "U")]) none =
      none ∧
    updateOne (.obj [("Folder", .str "F"), ("Name", .str "N"), ("UUID", .str "U")])
      (some (Xml.elem "save" [] [])) = none ∧
    getInstalledMods none = [] :=
  registry_error_behavior _ (Xml.elem "save" [] [])
    (mkModule "F" "" "N" "U" "36028797018963968") rfl (fun f => rfl)

theorem modsFiles_update (s : St) (l : List String) :
    ({ s with modsFiles := l } : St).modsFiles = l := rfl

theorem profileDoc_update_modsFiles (s : St) (l : List String) :
    ({ s with modsFiles := l } : St).profileDoc = s.profileDoc := rfl

theorem userDoc_update_modsFiles (s : St) (l : List String) :
    ({ s with modsFiles := l } : St).userDoc = s.userDoc := rfl

theorem writes_update_modsFiles (s : St) (l : List String) :
    ({ s with modsFiles := l } : St).writes = s.writes := rfl

theorem modsDirExists_update_modsFiles (s : St) (l : List String) :
    ({ s with modsFiles := l } : St).modsDirExists = s.modsDirExists := rfl

theorem userdataEntries_update_modsFiles (s : St) (l : List String) :
    ({ s with modsFiles := l } : St).userdataEntries = s.userdataEntries := rfl

/-- The complete effect of an in-bounds `remove_mod` whose record carries a
Folder key, when both registry files parse and a Steam id exists. -/
theorem removeMod_eq_of_in_bounds (i : Int) (s : St) (folderOpt : Option String)
    (d1 d2 : Xml) (sid : String)
    (hb : 0 ≤ i ∧ i < (getInstalledMods s.profileDoc).length)
    (hf : pyDictGet ((getInstalledMods s.profileDoc).getD i.toNat []) "Folder" =
      some folderOpt)
    (hsid : steamIdOf s = some sid)
    (hd1 : s.profileDoc = some d1) (hd2 : s.userDoc = some d2) :
    removeMod i s =
      ({ s with
          modsFiles := if pyFormatOpt folderOpt ++ ".pak" ∈ s.modsFiles
                       then s.modsFiles.erase (pyFormatOpt folderOpt ++ ".pak")
                       else s.modsFiles,
          profileDoc := some (removeFromDoc folderOpt d1),
          userDoc := some (removeFromDoc folderOpt d2),
          writes := s.writes ++ ["profile", "user"] }, RemoveOutcome.ret true) := by
  simp only [removeMod]
  rw [if_pos hb, hf]
  simp only [apply_ite steamIdOf, steamIdOf_update_modsFiles, ite_self, hsid,
    apply_ite St.profileDoc, profileDoc_update_modsFiles, hd1,
    apply_ite St.userDoc, userDoc_update_modsFiles, hd2,
    apply_ite St.writes, writes_update_modsFiles,
    apply_ite St.modsFiles, modsFiles_update,
    apply_ite St.modsDirExists, modsDirExists_update_modsFiles,
    apply_ite St.userdataEntries, userdataEntries_update_modsFiles,
    List.append_assoc, List.cons_append, List.nil_append]
  split
  · exfalso
    rename_i heq
    simp only [steamIdOf] at heq hsid
    rw [hsid, ite_self] at heq
    cases heq
  · rfl

/-- C10: for an in-bounds index whose selected record has a Folder key,
when both registry files parse and a Steam id exists, `remove_mod`
re-serializes and writes BOTH registry files unconditionally —
`removeFromDoc` leaves the document untouched when no node matches or no
Mods container exists — and returns `True` regardless of whether anything
was removed. -/
theorem remove_in_bounds_writes_both (i : Int) (s : St) (folderOpt : Option String)
    (d1 d2 : Xml) (sid : String)
    (hb : 0 ≤ i ∧ i < (getInstalledMods s.profileDoc).length)
    (hf : pyDictGet ((getInstalledMods s.profileDoc).getD i.toNat []) "Folder" =
      some folderOpt)
    (hsid : steamIdOf s = some sid)
    (hd1 : s.profileDoc = some d1) (hd2 : s.userDoc = some d2) :
    (removeMod i s).2 = RemoveOutcome.ret true ∧
    (removeMod i s).1.writes = s.writes ++ ["profile", "user"] ∧
    (removeMod i s).1.profileDoc = some (removeFromDoc folderOpt d1) ∧
    (removeMod i s).1.userDoc = some (removeFromDoc folderOpt d2) := by
  rw [removeMod_eq_of_in_bounds i s folderOpt d1 d2 sid hb hf hsid hd1 hd2]
  exact ⟨rfl, rfl, rfl, rfl⟩

theorem remove_in_bounds_writes_both_witness :
    (removeMod 0 stNoMods).2 = RemoveOutcome.ret true ∧
    (removeMod 0 stNoMods).1.writes = stNoMods.writes ++ ["profile", "user"] ∧
    (removeMod 0 stNoMods).1.profileDoc = some (removeFromDoc (some "F") docNoMods) ∧
    (removeMod 0 stNoMods).1.userDoc = some (removeFromDoc (some "F") docNoMods) :=
  remove_in_bounds_writes_both 0 stNoMods (some "F") docNoMods docNoMods "111"
    (by decide) (by decide) (by decide) rfl rfl

theorem removeFromDoc_mkModsettings (folder : Option String) (l : List Xml) :
    removeFromDoc folder (mkModsettings l) =
      mkModsettings (removeFirstModule folder l) := by
  simp [removeFromDoc, applyModMods_mkModsettings]

/-- C5 (counterexample): with two records sharing the Folder value `F`,
removing index 1 succeeds but deletes the FIRST matching node (index 0),
so the listed records afterwards are not the prior sequence with element 1
deleted: the survivor is the record named `B`, not `A`. -/
theorem remove_duplicate_folder_deletes_wrong_record :
    (removeMod 1 stDup).2 = RemoveOutcome.ret true ∧
    getInstalledMods (removeMod 1 stDup).1.profileDoc ≠
      (getInstalledMods stDup.profileDoc).eraseIdx 1 ∧
    (getInstalledMods (removeMod 1 stDup).1.profileDoc).map
      (fun d => pyDictGet d "Name") = [some (some "B")] ∧
    ((getInstalledMods stDup.profileDoc).eraseIdx 1).map
      (fun d => pyDictGet d "Name") = [some (some "A")] := by
  exact ⟨by decide, by decide, by decide, by decide⟩

/-- C5 (amended): for an in-bounds index whose record's Folder value does
not occur in an earlier record (in particular whenever Folder values are
unique, the documented invariant), `remove_mod` followed by listing the
records yields the prior sequence with the i-th element deleted, all
others in their original relative order; and the package file is untouched
when `<Folder>.pak` is not in the install directory. -/
theorem remove_erases_selected_record (rs : List ModRec) (i : Nat) (s : St) (d2 : Xml)
    (sid : String) (h : i < rs.length)
    (hfresh : ∀ r' ∈ rs.take i, r'.folder ≠ rs[i].folder)
    (hprof : s.profileDoc = some (mkModsettings (rs.map ModRec.node)))
    (huser : s.userDoc = some d2)
    (hsid : steamIdOf s = some sid) :
    (removeMod i s).2 = RemoveOutcome.ret true ∧
    getInstalledMods (removeMod i s).1.profileDoc =
      (getInstalledMods s.profileDoc).eraseIdx i ∧
    (rs[i].folder ++ ".pak" ∉ s.modsFiles → (removeMod i s).1.modsFiles = s.modsFiles) := by
  have hmods : getInstalledMods s.profileDoc = rs.map ModRec.dict := by
    rw [hprof, getInstalledMods_modRecs]
  have hb : 0 ≤ (i : Int) ∧ (i : Int) < (getInstalledMods s.profileDoc).length := by
    rw [hmods]
    simp only [List.length_map]
    omega
  have hgetd : (getInstalledMods s.profileDoc).getD ((i : Int)).toNat [] = rs[i].dict := by
    rw [hmods]
    have hlen : i < (rs.map ModRec.dict).length := by simp [h]
    rw [show ((i : Int)).toNat = i from rfl, List.getD_eq_getElem _ _ hlen,
      List.getElem_map]
  have hf : pyDictGet ((getInstalledMods s.profileDoc).getD ((i : Int)).toNat [])
      "Folder" = some (some rs[i].folder) := by
    rw [hgetd, pyDictGet_folder]
  have heq := removeMod_eq_of_in_bounds (i : Int) s (some rs[i].folder)
    (mkModsettings (rs.map ModRec.node)) d2 sid hb hf hsid hprof huser
  refine ⟨by rw [heq], ?_, fun hpak => ?_⟩
  · rw [heq]
    show getInstalledMods (some (removeFromDoc (some rs[i].folder)
      (mkModsettings (rs.map ModRec.node)))) =
      (getInstalledMods s.profileDoc).eraseIdx i
    rw [removeFromDoc_mkModsettings, removeFirstModule_modRecs rs i h hfresh,
      list_map_eraseIdx, getInstalledMods_modRecs, ← list_map_eraseIdx, hmods]
  · rw [heq]
    show (if pyFormatOpt (some rs[i].folder) ++ ".pak" ∈ s.modsFiles then
        s.modsFiles.erase (pyFormatOpt (some rs[i].folder) ++ ".pak")
      else s.modsFiles) = s.modsFiles
    rw [if_neg]
    exact fun hmem => hpak hmem

theorem remove_erases_selected_record_witness :
    (removeMod 0 stOne).2 = RemoveOutcome.ret true ∧
    getInstalledMods (removeMod 0 stOne).1.profileDoc =
      (getInstalledMods stOne.profileDoc).eraseIdx 0 ∧
    (removeMod 0 stOne).1.modsFiles = stOne.modsFiles := by
  have h := remove_erases_selected_record [recW] 0 stOne (mkModsettings [recW.node])
    "111" (by decide) (by simp) rfl rfl (by decide)
  exact ⟨h.1, h.2.1, h.2.2 (by decide)⟩

/-- C1: for an archive install whose manifest holds a non-empty "Mods"
record list with the required string fields, both registry files (in the
standard document shape) gain exactly one new `ModuleShortDesc` node,
appended as the last child under the Mods children container, carrying
exactly five attributes in the fixed order Folder, MD5, Name, UUID,
Version64, each typed `"LSString"`, whose values equal the first manifest
record with defaults `MD5=""` and `Version64="36028797018963968"` applied
when those fields are missing (`hM`, `hV`). -/
theorem install_with_manifest_appends_record
    (s : St) (suffix nm : String) (e : ZipEntry) (entries es : List ZipEntry)
    (fs rfields : List (String × JVal)) (rs : List JVal)
    (folder md5 name uuid ver : String) (ms1 ms2 : List Xml) (sid : String)
    (hsuf : [".zip", ".rar", ".7z"].contains (pyLower suffix) = true)
    (hpak : (entries.filter (fun z => pyEndsWith z.name ".pak")).isEmpty = false)
    (hinfo : entries.filter (fun z => pyEndsWith z.name "info.json") = e :: es)
    (hjson : e.json = some (.obj fs))
    (hmods : jobjGet fs "Mods" = some (.arr (.obj rfields :: rs)))
    (hF : jobjGet rfields "Folder" = some (.str folder))
    (hM : (jobjGet rfields "MD5").getD (.str "") = .str md5)
    (hN : jobjGet rfields "Name" = some (.str name))
    (hU : jobjGet rfields "UUID" = some (.str uuid))
    (hV : pyStr ((jobjGet rfields "Version").getD (.str "36028797018963968")) = ver)
    (hprof : s.profileDoc = some (mkModsettings ms1))
    (huser : s.userDoc = some (mkModsettings ms2))
    (hsid : steamIdOf s = some sid) :
    installMod ⟨suffix, nm, some entries⟩ s =
      ({ s with modsDirExists := true,
                modsFiles := s.modsFiles ++
                  ((entries.filter (fun z => pyEndsWith z.name ".pak")).map (·.name)),
                profileDoc :=
                  some (mkModsettings (ms1 ++ [mkModule folder md5 name uuid ver])),
                userDoc :=
                  some (mkModsettings (ms2 ++ [mkModule folder md5 name uuid ver])),
                writes := s.writes ++ ["profile", "user"] }, InstallOutcome.ok) ∧
    mkModule folder md5 name uuid ver =
      Xml.elem "node" [("id", "ModuleShortDesc")]
        [Xml.elem "attribute" [("id", "Folder"), ("type", "LSString"), ("value", folder)] [],
         Xml.elem "attribute" [("id", "MD5"), ("type", "LSString"), ("value", md5)] [],
         Xml.elem "attribute" [("id", "Name"), ("type", "LSString"), ("value", name)] [],
         Xml.elem "attribute" [("id", "UUID"), ("type", "LSString"), ("value", uuid)] [],
         Xml.elem "attribute" [("id", "Version64"), ("type", "LSString"), ("value", ver)] []]
    := by
  have hcreate : createModXml (.obj rfields) = some (mkModule folder md5 name uuid ver) :=
    createModXml_eq rfields folder md5 name uuid ver hF hM hN hU hV
  have hany : fs.any (fun p => p.1 == "Mods") = true := any_key_of_jobjGet hmods
  refine ⟨?_, rfl⟩
  simp only [installMod, hsuf, if_true, hpak, Bool.false_eq_true, if_false, hinfo,
    hjson, manifestAction, pyContains, hany, pySubscript, hmods, pyLen,
    List.length_cons, pyIndexZero, gt_iff_lt, Nat.zero_lt_succ, if_true]
  exact updateModsettings_mk (.obj rfields) (mkModule folder md5 name uuid ver) _
    ms1 ms2 sid hcreate hprof huser hsid

theorem install_with_manifest_appends_record_witness :
    (installMod ⟨".zip", "mod.zip", some zipW⟩ stBase).1.profileDoc =
      some (mkModsettings [mkModule "ModX" "" "Mod X" "abc-123" "36028797018963968"]) ∧
    (installMod ⟨".zip", "mod.zip", some zipW⟩ stBase).1.userDoc =
      some (mkModsettings [mkModule "ModX" "" "Mod X" "abc-123" "36028797018963968"]) ∧
    (installMod ⟨".zip", "mod.zip", some zipW⟩ stBase).2 = InstallOutcome.ok := by
  have h := install_with_manifest_appends_record stBase ".zip" "mod.zip"
    ⟨"info.json", some manifestW⟩ zipW []
    [("Mods", .arr [.obj [("Folder", .str "ModX"), ("Name", .str "Mod X"),
      ("UUID", .str "abc-123")]])]
    [("Folder", .str "ModX"), ("Name", .str "Mod X"), ("UUID", .str "abc-123")] []
    "ModX" "" "Mod X" "abc-123" "36028797018963968" [] [] "111"
    (by decide) (by decide) rfl rfl rfl rfl rfl rfl rfl rfl rfl rfl (by decide)
  refine ⟨?_, ?_, ?_⟩ <;> rw [h.1] <;> rfl
